import Mathlib

/-!
Shallow embedding of `torch/distributed/nn/api/remote_module.py`.

The file defines the data model of the remote-module construction protocol
(names, interface descriptions, generated proxy classes, reference handles)
and embeds the four functions of the source file:

* `_gen_global_unique_name`  — the identity allocator (the process-wide
  counter `_NEXT_LOCAL_ID` becomes explicit state that is threaded through;
  the source protects the read-increment with `_NEXT_LOCAL_ID_LOCK`, so a
  concurrent execution of several calls is a sequence of atomic
  read-increment steps, which is what the state-threading models);
* `_instantiate_template`    — the template instantiator;
* `_script_module_creator_wrapper` — the remote handler of the synchronous
  creation RPC on the scriptable path;
* `RemoteModule`             — the construction orchestrator.

External collaborators that live outside the source file (the RPC runtime,
`torch.distributed.nn.jit.instantiator`, `torch.jit.script`, the creator
callables) are parameters of an environment record `Env`; the orchestrator
additionally returns the list of RPC-related events it performed, in program
order, so that ordering claims can be stated about the trace.
-/

/-- Signature of one forwarding method of a generated proxy class. -/
structure MethodSig where
  mname : String
  params : List String
deriving DecidableEq, Repr

/-- Interface description (`module_interface_cls` in the source): a callable
surface plus the optional `__torch_script_interface__` attribute; `none`
models the attribute being absent, in which case `getattr(..., False)`
yields `False`. -/
structure ModuleInterface where
  methods : List MethodSig
  torch_script_interface : Option Bool
deriving DecidableEq, Repr

/-- Abstract module creator callable (`module_creator`); its behaviour when
invoked lives in the environment. -/
structure Creator where
  cid : Nat
deriving DecidableEq, Repr

/-- Positional argument value (abstract). -/
abbrev Arg := Nat

/-- Positional arguments; `none` at the orchestrator boundary models
Python's `None` default, `[]` models the empty tuple `()`. -/
abbrev Args := List Arg

/-- Keyword arguments; `[]` models the empty dict `{}`. -/
abbrev Kwargs := List (String × Arg)

/-- Raw module object produced by a creator on the remote node. -/
structure PyModule where
  mid : Nat
deriving DecidableEq, Repr

/-- Result of lowering a module with `torch.jit.script`. -/
structure ScriptModule where
  lowered : PyModule
deriving DecidableEq, Repr

/-- Generated proxy class (`generated_module._RemoteModule`), keeping its
behaviourally relevant content: the set of forwarding methods. -/
structure RemoteModuleCls where
  forwardingMethods : List MethodSig
deriving DecidableEq, Repr

/-- Generated module returned by
`instantiator.instantiate_remote_module_template`, carrying the generated
`_RemoteModule` class. -/
structure GeneratedModule where
  _RemoteModule : RemoteModuleCls
deriving DecidableEq, Repr

/-- Reference handle (`RRef`) held by the proxy: either an `rpc.RRef`
wrapping a script module typed by the interface (synchronous scriptable
path), or the handle returned immediately by `rpc.remote` for a deferred
creation that has not been waited on. -/
inductive RRefValue
  | wrapped (script_module : ScriptModule) (iface : ModuleInterface)
  | pending (to_ : String) (creator : Creator) (args : Args) (kwargs : Kwargs)
deriving DecidableEq, Repr

/-- The proxy instance returned to the caller:
`remote_module_cls(module_rref, is_scriptable)`. -/
structure ProxyInstance where
  cls : RemoteModuleCls
  module_rref : RRefValue
  is_scriptable : Bool
deriving DecidableEq, Repr

/-- Errors surfaced by the orchestrator, one constructor per class of the
spec's taxonomy; the payload of the generation / creation errors is the
message of the underlying failure. -/
inductive RMError
  | preconditionError
  | interfaceInferenceError
  | templateGenerationError (msg : String)
  | remoteCreationError (msg : String)
deriving DecidableEq, Repr

/-- Behaviour of `instantiator.instantiate_remote_module_template`
(external to the source file): from the generated module name, the
interface and the scriptable flag it produces a generated module, or fails
with a codegen error message. -/
abbrev Instantiator := String → ModuleInterface → Bool → Except String GeneratedModule

/-- RPC-related events of one orchestrator run, in program order. -/
inductive Event
  | rpcAsyncInstantiate (to_ : String) (name : String) (iface : ModuleInterface)
      (is_scriptable : Bool)
  | localInstantiate (name : String) (iface : ModuleInterface) (is_scriptable : Bool)
  | rpcSyncCreate (to_ : String) (creator : Creator) (iface : ModuleInterface)
      (args : Args) (kwargs : Kwargs)
  | remoteFactoryRun (creator : Creator) (args : Args) (kwargs : Kwargs)
  | rpcRemoteCreate (to_ : String) (creator : Creator) (args : Args) (kwargs : Kwargs)
  | futWait
deriving DecidableEq, Repr

/-- An event that performs a network call (issues an RPC). `futWait` only
joins a future already issued, `localInstantiate` is purely local, and
`remoteFactoryRun` happens on the remote node inside the synchronous call. -/
def Event.isNetworkCall : Event → Bool
  | .rpcAsyncInstantiate _ _ _ _ => true
  | .rpcSyncCreate _ _ _ _ _ => true
  | .rpcRemoteCreate _ _ _ _ => true
  | _ => false

/-- Environment: the external collaborators of the orchestrator. The two
sides may run distinct instantiator states, hence two `Instantiator`
fields. -/
structure Env where
  agentSet : Bool
  workerName : String
  get_return_type_from_callable : Creator → Option ModuleInterface
  localInst : Instantiator
  remoteInst : Instantiator
  runCreator : Creator → Args → Kwargs → Except String PyModule
  jitScript : PyModule → Except String ScriptModule

/-- Embedding of `_gen_global_unique_name`: reads the counter, increments
it, reads the node's own worker name from the RPC agent, and concatenates
`f"{self_worker_name}_{local_unique_id}"`. The counter is the explicit
`Nat` state; the lock of the source makes the read-increment atomic, which
the sequential state threading reflects. -/
def _gen_global_unique_name (self_worker_name : String) (next_local_id : Nat) :
    String × Nat :=
  let local_unique_id := next_local_id
  (self_worker_name ++ "_" ++ Nat.repr local_unique_id, next_local_id + 1)

/-- Embedding of `_instantiate_template`: derives the registration name
`f"_RemoteModule_{global_unique_name}"`, invokes the instantiator on it and
projects the generated `_RemoteModule` class. -/
def _instantiate_template (inst : Instantiator) (global_unique_name : String)
    (module_interface_cls : ModuleInterface) (is_scriptable : Bool) :
    Except String RemoteModuleCls :=
  let generated_module_name := "_RemoteModule_" ++ global_unique_name
  match inst generated_module_name module_interface_cls is_scriptable with
  | .error e => .error e
  | .ok generated_module => .ok generated_module._RemoteModule

/-- Embedding of `_script_module_creator_wrapper`, the remote handler of
the synchronous creation RPC: runs `module_creator(*args, **kwargs)`,
lowers the result with `torch.jit.script` and wraps it in an `rpc.RRef`
typed by the interface. -/
def _script_module_creator_wrapper
    (run : Creator → Args → Kwargs → Except String PyModule)
    (script : PyModule → Except String ScriptModule)
    (module_creator : Creator) (module_interface_cls : ModuleInterface)
    (args : Args) (kwargs : Kwargs) : Except String RRefValue :=
  match run module_creator args kwargs with
  | .error e => .error e
  | .ok module_obj =>
    match script module_obj with
    | .error e => .error e
    | .ok script_module => .ok (RRefValue.wrapped script_module module_interface_cls)

/-- Resolution of the global name at the top of the orchestrator: the
caller-supplied value when one is given (counter untouched), otherwise a
fresh allocator result (counter advanced). -/
def resolveName (env : Env) (next_local_id : Nat)
    (global_unique_name : Option String) : String × Nat :=
  match global_unique_name with
  | some n => (n, next_local_id)
  | none => _gen_global_unique_name env.workerName next_local_id

/-- Resolution of the interface description: the caller-supplied value when
one is given, otherwise `instantiator.get_return_type_from_callable`
(whose failure, `none`, becomes the inference error). -/
def resolveIface (env : Env) (module_creator : Creator)
    (module_interface_cls : Option ModuleInterface) : Option ModuleInterface :=
  match module_interface_cls with
  | some c => some c
  | none => env.get_return_type_from_callable module_creator

/-- Embedding of `RemoteModule`, the construction orchestrator. Returns
the event trace in program order, the final counter state, and either the
proxy instance or the error raised. Mirrors the source line by line:
assert on the RPC agent; default `args` / `kwargs`; resolve the global
name (allocator when not supplied); resolve the interface (inference when
not supplied); read the scriptable flag; issue the asynchronous remote
template instantiation (its eventual result is `futResult`); instantiate
the template locally; create the remote module (synchronous scripted
creation or deferred `rpc.remote`); build the proxy; `fut.wait()`;
return. -/
def RemoteModule (env : Env) (next_local_id : Nat)
    (to_ : String) (module_creator : Creator)
    (args : Option Args) (kwargs : Option Kwargs)
    (global_unique_name : Option String)
    (module_interface_cls : Option ModuleInterface) :
    List Event × Nat × Except RMError ProxyInstance :=
  if env.agentSet = false then
    ([], next_local_id, .error .preconditionError)
  else
    let args := args.getD []
    let kwargs := kwargs.getD []
    let resolved := resolveName env next_local_id global_unique_name
    let gname := resolved.1
    let st := resolved.2
    match resolveIface env module_creator module_interface_cls with
    | none => ([], st, .error .interfaceInferenceError)
    | some iface =>
      let is_scriptable := iface.torch_script_interface.getD false
      let futResult := _instantiate_template env.remoteInst gname iface is_scriptable
      let tr0 := [Event.rpcAsyncInstantiate to_ gname iface is_scriptable,
                  Event.localInstantiate gname iface is_scriptable]
      match _instantiate_template env.localInst gname iface is_scriptable with
      | .error e => (tr0, st, .error (.templateGenerationError e))
      | .ok remote_module_cls =>
        if is_scriptable then
          match _script_module_creator_wrapper env.runCreator env.jitScript
              module_creator iface args kwargs with
          | .error e =>
            (tr0 ++ [Event.rpcSyncCreate to_ module_creator iface args kwargs,
                     Event.remoteFactoryRun module_creator args kwargs],
             st, .error (.remoteCreationError e))
          | .ok module_rref =>
            (tr0 ++ [Event.rpcSyncCreate to_ module_creator iface args kwargs,
                     Event.remoteFactoryRun module_creator args kwargs,
                     Event.futWait],
             st,
             match futResult with
             | .error e => .error (.templateGenerationError e)
             | .ok _ => .ok (ProxyInstance.mk remote_module_cls module_rref is_scriptable))
        else
          let module_rref := RRefValue.pending to_ module_creator args kwargs
          (tr0 ++ [Event.rpcRemoteCreate to_ module_creator args kwargs, Event.futWait],
           st,
           match futResult with
           | .error e => .error (.templateGenerationError e)
           | .ok _ => .ok (ProxyInstance.mk remote_module_cls module_rref is_scriptable))

def Event.isSyncCreate : Event → Bool
  | .rpcSyncCreate _ _ _ _ _ => true
  | _ => false

def Event.isRemoteCreate : Event → Bool
  | .rpcRemoteCreate _ _ _ _ => true
  | _ => false

def Event.isFactoryRun : Event → Bool
  | .remoteFactoryRun _ _ _ => true
  | _ => false

/-- Names produced by `k` successive calls of the identity allocator
starting from counter state `st`. Because the source's
`_NEXT_LOCAL_ID_LOCK` makes each read-increment atomic, any concurrent
execution of `k` allocator calls on one node linearizes into such a
sequence, so this covers the concurrent case of the uniqueness claim. -/
def genNames (w : String) (st : Nat) : Nat → List String
  | 0 => []
  | k + 1 =>
    let r := _gen_global_unique_name w st
    r.1 :: genNames w r.2 k

def sampleIfaceS : ModuleInterface := ⟨[⟨"forward", ["x"]⟩], some true⟩
def sampleIfaceN : ModuleInterface := ⟨[⟨"forward", ["x"]⟩], none⟩
def okInst : Instantiator := fun _ _ _ => .ok ⟨⟨[⟨"forward", ["x"]⟩]⟩⟩
def sampleEnv : Env where
  agentSet := true
  workerName := "worker0"
  get_return_type_from_callable := fun _ => some sampleIfaceN
  localInst := okInst
  remoteInst := okInst
  runCreator := fun c a _ => .ok ⟨c.cid + a.length⟩
  jitScript := fun m => .ok ⟨m⟩
def sampleEnvFutErr : Env := { sampleEnv with remoteInst := fun _ _ _ => .error "remote codegen failed" }
def sampleEnvOff : Env := { sampleEnv with agentSet := false }

/-- Proxy class produced by `okInst` through the instantiator. -/
def sampleCls : RemoteModuleCls := ⟨[⟨"forward", ["x"]⟩]⟩

/-- Trace of the sample non-scriptable construction. -/
def sampleTraceN : List Event :=
  [.rpcAsyncInstantiate "worker1" "worker0_0" sampleIfaceN false,
   .localInstantiate "worker0_0" sampleIfaceN false,
   .rpcRemoteCreate "worker1" ⟨5⟩ [] [],
   .futWait]

/-- Proxy returned by the sample non-scriptable construction. -/
def sampleProxyN : ProxyInstance := ⟨sampleCls, .pending "worker1" ⟨5⟩ [] [], false⟩

/-- Trace of the sample scriptable construction. -/
def sampleTraceS : List Event :=
  [.rpcAsyncInstantiate "worker1" "worker0_0" sampleIfaceS true,
   .localInstantiate "worker0_0" sampleIfaceS true,
   .rpcSyncCreate "worker1" ⟨5⟩ sampleIfaceS [] [],
   .remoteFactoryRun ⟨5⟩ [] [],
   .futWait]

/-- Proxy returned by the sample scriptable construction. -/
def sampleProxyS : ProxyInstance := ⟨sampleCls, .wrapped ⟨⟨5⟩⟩ sampleIfaceS, true⟩

/-! ### Decimal rendering facts

`_gen_global_unique_name` embeds the counter value in decimal via
`Nat.repr`; the uniqueness claims need that this rendering is injective,
which the library does not provide, so it is proved here from a
digit-reading round trip. -/

/-- Numeric value of a decimal digit character. -/
def dval (c : Char) : Nat := c.toNat - 48

/-- Reads a digit list (most significant first) back into a number,
starting from an accumulator. -/
def readAux (acc : Nat) (ds : List Char) : Nat :=
  ds.foldl (fun a c => a * 10 + dval c) acc

lemma dval_digitChar : ∀ m, m < 10 → dval (Nat.digitChar m) = m := by decide

lemma toDigitsCore_append (n : Nat) : ∀ (fuel : Nat) (ds : List Char), n < fuel →
    Nat.toDigitsCore 10 fuel n ds = Nat.toDigits 10 n ++ ds := by
  induction n using Nat.strong_induction_on with
  | _ n ih =>
    intro fuel ds hfuel
    match fuel, hfuel with
    | fuel + 1, hfuel =>
      by_cases h0 : n / 10 = 0
      · simp [Nat.toDigits, Nat.toDigitsCore, h0]
      · have hpos : 0 < n := by omega
        have hlt : n / 10 < n := Nat.div_lt_self hpos (by norm_num)
        have hfl : n / 10 < fuel := by omega
        rw [Nat.toDigitsCore]
        simp only [h0, if_false]
        rw [ih (n / 10) hlt fuel _ hfl]
        conv_rhs => rw [Nat.toDigits, Nat.toDigitsCore]
        simp only [h0, if_false]
        rw [ih (n / 10) hlt n _ hlt]
        simp

lemma toDigits_split (n : Nat) (h0 : n / 10 ≠ 0) :
    Nat.toDigits 10 n = Nat.toDigits 10 (n / 10) ++ [Nat.digitChar (n % 10)] := by
  have hpos : 0 < n := by omega
  have hlt : n / 10 < n := Nat.div_lt_self hpos (by norm_num)
  conv_lhs => rw [Nat.toDigits, Nat.toDigitsCore]
  simp only [h0, if_false]
  exact toDigitsCore_append (n / 10) n [Nat.digitChar (n % 10)] hlt

lemma read_toDigits (n : Nat) : ∀ acc,
    readAux acc (Nat.toDigits 10 n) = acc * 10 ^ (Nat.toDigits 10 n).length + n := by
  induction n using Nat.strong_induction_on with
  | _ n ih =>
    intro acc
    by_cases h0 : n / 10 = 0
    · have hn : n < 10 := by omega
      have hmod : n % 10 = n := Nat.mod_eq_of_lt hn
      simp [Nat.toDigits, Nat.toDigitsCore, h0, hmod, readAux,
        dval_digitChar n hn]
    · have hpos : 0 < n := by omega
      have hlt : n / 10 < n := Nat.div_lt_self hpos (by norm_num)
      rw [toDigits_split n h0]
      have hrd : readAux acc (Nat.toDigits 10 (n / 10) ++ [Nat.digitChar (n % 10)])
          = readAux acc (Nat.toDigits 10 (n / 10)) * 10 + dval (Nat.digitChar (n % 10)) := by
        simp [readAux]
      rw [hrd, ih (n / 10) hlt acc, dval_digitChar (n % 10) (Nat.mod_lt n (by norm_num))]
      have hlen : (Nat.toDigits 10 (n / 10) ++ [Nat.digitChar (n % 10)]).length
          = (Nat.toDigits 10 (n / 10)).length + 1 := by simp
      rw [hlen, pow_succ]
      have hdm : n / 10 * 10 + n % 10 = n := Nat.div_add_mod n 10 ▸ by omega
      ring_nf
      omega

lemma toDigits_inj (m n : Nat) (h : Nat.toDigits 10 m = Nat.toDigits 10 n) : m = n := by
  have hm := read_toDigits m 0
  have hn := read_toDigits n 0
  rw [h] at hm
  simp only [Nat.zero_mul, Nat.zero_add] at hm hn
  omega

lemma repr_inj {m n : Nat} (h : Nat.repr m = Nat.repr n) : m = n := by
  apply toDigits_inj
  have : (Nat.toDigits 10 m).asString.data = (Nat.toDigits 10 n).asString.data :=
    congrArg String.data h
  simpa [List.asString] using this

lemma repr_data_inj {m n : Nat} (h : (Nat.repr m).data = (Nat.repr n).data) : m = n := by
  apply toDigits_inj
  simpa [Nat.repr, List.asString] using h

lemma name_inj (w : String) {i j : Nat}
    (h : w ++ "_" ++ Nat.repr i = w ++ "_" ++ Nat.repr j) : i = j := by
  apply repr_data_inj
  have hd := congrArg String.data h
  simp only [String.data_append, List.append_assoc] at hd
  have h1 := List.append_cancel_left hd
  have h2 := List.append_cancel_left h1
  exact h2

lemma genNames_eq (w : String) : ∀ st k, genNames w st k
    = (List.range k).map (fun j => w ++ "_" ++ Nat.repr (st + j)) := by
  intro st k
  induction k generalizing st with
  | zero => simp [genNames]
  | succ k ih =>
    rw [genNames, List.range_succ_eq_map]
    simp only [List.map_cons, List.map_map, Nat.add_zero, _gen_global_unique_name]
    rw [ih (st + 1)]
    congr 1
    apply List.map_congr_left
    intro j _
    simp only [Function.comp]
    congr 2
    omega

lemma inactive_run (env : Env) (ha : env.agentSet = false) (st : Nat) (to_ : String)
    (c : Creator) (a? : Option Args) (k? : Option Kwargs) (n? : Option String)
    (i? : Option ModuleInterface) :
    RemoteModule env st to_ c a? k? n? i? = ([], st, .error .preconditionError) := by
  simp [RemoteModule, ha]

lemma run_agent_of_ok (env : Env) (st : Nat) (to_ : String)
    (c : Creator) (a? : Option Args) (k? : Option Kwargs) (n? : Option String)
    (i? : Option ModuleInterface) (tr : List Event) (st' : Nat) (p : ProxyInstance)
    (h : RemoteModule env st to_ c a? k? n? i? = (tr, st', .ok p)) :
    env.agentSet = true := by
  by_contra hne
  have hfa : env.agentSet = false := by cases henv : env.agentSet <;> simp_all
  rw [inactive_run env hfa] at h
  cases h

lemma ok_run (env : Env) (st : Nat) (to_ : String)
    (c : Creator) (a? : Option Args) (k? : Option Kwargs) (n? : Option String)
    (i? : Option ModuleInterface) (tr : List Event) (st' : Nat) (p : ProxyInstance)
    (h : RemoteModule env st to_ c a? k? n? i? = (tr, st', .ok p)) :
    env.agentSet = true ∧ ∃ iface,
      resolveIface env c i? = some iface ∧
      st' = (resolveName env st n?).2 ∧
      p.is_scriptable = iface.torch_script_interface.getD false ∧
      _instantiate_template env.localInst (resolveName env st n?).1 iface
        p.is_scriptable = .ok p.cls ∧
      (_instantiate_template env.remoteInst (resolveName env st n?).1 iface
        p.is_scriptable).isOk = true ∧
      (if p.is_scriptable then
        (_script_module_creator_wrapper env.runCreator env.jitScript c iface
            (a?.getD []) (k?.getD []) = .ok p.module_rref
         ∧ tr = [.rpcAsyncInstantiate to_ (resolveName env st n?).1 iface p.is_scriptable,
                 .localInstantiate (resolveName env st n?).1 iface p.is_scriptable,
                 .rpcSyncCreate to_ c iface (a?.getD []) (k?.getD []),
                 .remoteFactoryRun c (a?.getD []) (k?.getD []), .futWait])
       else
        (p.module_rref = .pending to_ c (a?.getD []) (k?.getD [])
         ∧ tr = [.rpcAsyncInstantiate to_ (resolveName env st n?).1 iface p.is_scriptable,
                 .localInstantiate (resolveName env st n?).1 iface p.is_scriptable,
                 .rpcRemoteCreate to_ c (a?.getD []) (k?.getD []), .futWait])) := by
  have ha := run_agent_of_ok env st to_ c a? k? n? i? tr st' p h
  refine ⟨ha, ?_⟩
  simp only [RemoteModule, ha] at h
  rw [if_neg (by simp)] at h
  split at h
  · cases h
  · rename_i iface hif
    split at h
    · cases h
    · rename_i cls hloc
      split at h
      · rename_i hscr
        split at h
        · cases h
        · rename_i rref hwrap
          split at h
          · cases h
          · rename_i a hfut
            cases h
            refine ⟨iface, hif, rfl, ?_⟩
            rw [hscr] at hloc hfut
            simp [hscr, hloc, hwrap, hfut, Except.isOk, Except.toBool]
      · rename_i hscr
        split at h
        · cases h
        · rename_i a hfut
          cases h
          refine ⟨iface, hif, rfl, ?_⟩
          simp only [Bool.not_eq_true] at hscr
          rw [hscr] at hloc hfut
          simp [hscr, hloc, hfut, Except.isOk, Except.toBool]

lemma genNames_nodup (w : String) (st k : Nat) : (genNames w st k).Nodup := by
  rw [genNames_eq]
  refine List.Nodup.map ?_ (List.nodup_range k)
  intro a b hab
  have := name_inj w hab
  omega

lemma active_no_precondition (env : Env) (ha : env.agentSet = true) (st : Nat)
    (to_ : String) (c : Creator) (a? : Option Args) (k? : Option Kwargs)
    (n? : Option String) (i? : Option ModuleInterface) :
    (RemoteModule env st to_ c a? k? n? i?).2.2 ≠ .error .preconditionError := by
  simp only [RemoteModule, ha]
  repeat' split
  all_goals simp_all

lemma fut_error_run (env : Env) (ha : env.agentSet = true) (st : Nat) (to_ : String)
    (c : Creator) (a? : Option Args) (k? : Option Kwargs) (n? : Option String)
    (i? : Option ModuleInterface) (iface : ModuleInterface) (cls : RemoteModuleCls)
    (e : String)
    (hif : resolveIface env c i? = some iface)
    (hloc : _instantiate_template env.localInst (resolveName env st n?).1 iface
      (iface.torch_script_interface.getD false) = .ok cls)
    (hfut : _instantiate_template env.remoteInst (resolveName env st n?).1 iface
      (iface.torch_script_interface.getD false) = .error e)
    (hcreate : iface.torch_script_interface.getD false = true →
      (_script_module_creator_wrapper env.runCreator env.jitScript c iface
        (a?.getD []) (k?.getD [])).isOk = true) :
    (RemoteModule env st to_ c a? k? n? i?).2.2
      = .error (.templateGenerationError e) := by
  simp only [RemoteModule, ha]
  rw [if_neg (by simp), hif]
  dsimp only
  rw [hloc]
  dsimp only
  by_cases hs : iface.torch_script_interface.getD false = true
  · rw [if_pos hs]
    have hok := hcreate hs
    match hw : _script_module_creator_wrapper env.runCreator env.jitScript c iface
        (a?.getD []) (k?.getD []) with
    | .error e' => rw [hw] at hok; simp [Except.isOk, Except.toBool] at hok
    | .ok r =>
      dsimp only
      rw [hfut]
  · rw [if_neg hs]
    dsimp only
    rw [hfut]

lemma wrapper_ok (run : Creator → Args → Kwargs → Except String PyModule)
    (script : PyModule → Except String ScriptModule) (c : Creator)
    (i : ModuleInterface) (a : Args) (k : Kwargs) (r : RRefValue)
    (h : _script_module_creator_wrapper run script c i a k = .ok r) :
    ∃ m sm, run c a k = .ok m ∧ script m = .ok sm ∧ r = .wrapped sm i := by
  unfold _script_module_creator_wrapper at h
  split at h
  · cases h
  · rename_i m hm
    split at h
    · cases h
    · rename_i sm hsm
      cases h
      exact ⟨m, sm, hm, hsm, rfl⟩

/-- Claim C5: for any `k` invocations of the identity allocator on one node —
concurrent invocations linearize to such a sequence because the
read-increment happens atomically under the lock — the produced names are
pairwise distinct: call `j` embeds the counter value `st + j` in its name,
and distinct counter values yield distinct names. -/
theorem C5_allocator_names_pairwise_distinct (w : String) (st k : Nat) :
    genNames w st k = (List.range k).map (fun j => w ++ "_" ++ Nat.repr (st + j))
    ∧ (genNames w st k).Pairwise (· ≠ ·) :=
  ⟨genNames_eq w st k, genNames_nodup w st k⟩

/-- Claim C7: the template instantiator is deterministic — two invocations with
equal `(name, iface, compilable)` return identical results, in particular
equal forwarding-method sets — and it always consults the code generator
under the registration name `"_RemoteModule_" ++ name`, a pure function of
the global unique name. -/
theorem C7_template_instantiation_deterministic (inst : Instantiator)
    (n₁ n₂ : String) (i₁ i₂ : ModuleInterface) (s₁ s₂ : Bool)
    (hn : n₁ = n₂) (hi : i₁ = i₂) (hs : s₁ = s₂) :
    _instantiate_template inst n₁ i₁ s₁ = _instantiate_template inst n₂ i₂ s₂
    ∧ (∀ cls₁ cls₂, _instantiate_template inst n₁ i₁ s₁ = .ok cls₁ →
        _instantiate_template inst n₂ i₂ s₂ = .ok cls₂ →
        cls₁.forwardingMethods = cls₂.forwardingMethods)
    ∧ _instantiate_template inst n₁ i₁ s₁
        = Except.map GeneratedModule._RemoteModule (inst ("_RemoteModule_" ++ n₁) i₁ s₁) := by
  subst hn hi hs
  refine ⟨rfl, ?_, ?_⟩
  · intro c1 c2 h1 h2
    rw [h1] at h2
    cases h2
    rfl
  · simp only [_instantiate_template]
    cases h : inst ("_RemoteModule_" ++ n₁) i₁ s₁ <;> simp [h, Except.map]

/-- Witness for C7 at a concrete instantiator and inputs. -/
theorem C7_witness :
    _instantiate_template okInst "nm" sampleIfaceS true
      = _instantiate_template okInst "nm" sampleIfaceS true
    ∧ (∀ cls₁ cls₂, _instantiate_template okInst "nm" sampleIfaceS true = .ok cls₁ →
        _instantiate_template okInst "nm" sampleIfaceS true = .ok cls₂ →
        cls₁.forwardingMethods = cls₂.forwardingMethods)
    ∧ _instantiate_template okInst "nm" sampleIfaceS true
        = Except.map GeneratedModule._RemoteModule (okInst ("_RemoteModule_" ++ "nm") sampleIfaceS true) :=
  C7_template_instantiation_deterministic okInst "nm" "nm" sampleIfaceS sampleIfaceS
    true true rfl rfl rfl

/-- Claim C2: when the RPC agent is not set, `RemoteModule` fails with the
precondition error, with an empty event trace — so before any network
call; when the agent is set, the result is never the precondition error. -/
theorem C2_precondition_error_iff_inactive (env : Env) (st : Nat) (to_ : String)
    (c : Creator) (a? : Option Args) (k? : Option Kwargs) (n? : Option String)
    (i? : Option ModuleInterface) :
    (env.agentSet = false →
      RemoteModule env st to_ c a? k? n? i? = ([], st, .error .preconditionError)
      ∧ ∀ e ∈ (RemoteModule env st to_ c a? k? n? i?).1, e.isNetworkCall = false)
    ∧ (env.agentSet = true →
      (RemoteModule env st to_ c a? k? n? i?).2.2 ≠ .error .preconditionError) := by
  constructor
  · intro ha
    refine ⟨inactive_run env ha st to_ c a? k? n? i?, ?_⟩
    rw [inactive_run env ha st to_ c a? k? n? i?]
    intro e he
    simp at he
  · intro ha
    exact active_no_precondition env ha st to_ c a? k? n? i?

/-- Witness for C2: an inactive-agent environment fails with the
precondition error and an empty trace; an active one never surfaces it. -/
theorem C2_witness :
    (RemoteModule sampleEnvOff 0 "worker1" ⟨5⟩ none none none none
      = ([], 0, .error .preconditionError))
    ∧ (RemoteModule sampleEnv 0 "worker1" ⟨5⟩ none none none none).2.2
        ≠ .error .preconditionError :=
  ⟨((C2_precondition_error_iff_inactive sampleEnvOff 0 "worker1" ⟨5⟩
      none none none none).1 rfl).1,
   (C2_precondition_error_iff_inactive sampleEnv 0 "worker1" ⟨5⟩
      none none none none).2 rfl⟩

/-- Claim C1: when the orchestrator returns a proxy, the remote template
instantiation future has resolved successfully, the remote creation has
yielded the reference handle the proxy holds, and the very last event
before returning is the `fut.wait()` join. -/
theorem C1_return_only_after_both_remote_effects (env : Env) (st : Nat)
    (to_ : String) (c : Creator) (a? : Option Args) (k? : Option Kwargs)
    (n? : Option String) (i? : Option ModuleInterface) (tr : List Event)
    (st' : Nat) (p : ProxyInstance)
    (h : RemoteModule env st to_ c a? k? n? i? = (tr, st', .ok p)) :
    tr.getLast? = some Event.futWait
    ∧ ∃ iface, resolveIface env c i? = some iface
      ∧ (_instantiate_template env.remoteInst (resolveName env st n?).1 iface
          p.is_scriptable).isOk = true
      ∧ (p.is_scriptable = true →
          _script_module_creator_wrapper env.runCreator env.jitScript c iface
            (a?.getD []) (k?.getD []) = .ok p.module_rref)
      ∧ (p.is_scriptable = false →
          p.module_rref = .pending to_ c (a?.getD []) (k?.getD [])) := by
  obtain ⟨ha, iface, hif, hst, hs, hloc, hfut, hbranch⟩ :=
    ok_run env st to_ c a? k? n? i? tr st' p h
  by_cases hscr : p.is_scriptable = true
  · rw [if_pos hscr] at hbranch
    obtain ⟨hw, htr⟩ := hbranch
    subst htr
    refine ⟨rfl, iface, hif, hfut, fun _ => hw, fun hf => ?_⟩
    rw [hscr] at hf
    cases hf
  · have hf : p.is_scriptable = false := by simpa using hscr
    rw [if_neg hscr] at hbranch
    obtain ⟨hw, htr⟩ := hbranch
    subst htr
    refine ⟨rfl, iface, hif, hfut, fun ht => ?_, fun _ => hw⟩
    rw [hf] at ht
    cases ht

/-- Claim C3: if the remote template instantiation future resolved with an
error, the orchestrator raises the template generation error even when the
local template instantiation succeeded and the remote creation succeeded;
no proxy is ever returned in that case. -/
theorem C3_remote_template_failure_raises (env : Env) (st : Nat) (to_ : String)
    (c : Creator) (a? : Option Args) (k? : Option Kwargs) (n? : Option String)
    (i? : Option ModuleInterface) (iface : ModuleInterface)
    (cls : RemoteModuleCls) (e : String)
    (ha : env.agentSet = true)
    (hif : resolveIface env c i? = some iface)
    (hloc : _instantiate_template env.localInst (resolveName env st n?).1 iface
      (iface.torch_script_interface.getD false) = .ok cls)
    (hfut : _instantiate_template env.remoteInst (resolveName env st n?).1 iface
      (iface.torch_script_interface.getD false) = .error e)
    (hcreate : iface.torch_script_interface.getD false = true →
      (_script_module_creator_wrapper env.runCreator env.jitScript c iface
        (a?.getD []) (k?.getD [])).isOk = true) :
    (RemoteModule env st to_ c a? k? n? i?).2.2 = .error (.templateGenerationError e)
    ∧ ∀ p, (RemoteModule env st to_ c a? k? n? i?).2.2 ≠ .ok p := by
  have hmain := fut_error_run env ha st to_ c a? k? n? i? iface cls e hif hloc hfut hcreate
  refine ⟨hmain, fun p hp => ?_⟩
  rw [hmain] at hp
  cases hp

/-- Claim C4: remote object creation dispatches on the capability flag: on the
scriptable path the run performs exactly one synchronous creation RPC and
no deferred one, and its remote handler ran the factory, lowered the
result with the compiler and wrapped it in a handle typed by the
interface; on the non-scriptable path the run performs exactly one
deferred creation request, no synchronous one, never executes the factory
before returning, and the proxy holds the immediately returned pending
handle. -/
theorem C4_creation_dispatch_on_capability (env : Env) (st : Nat) (to_ : String)
    (c : Creator) (a? : Option Args) (k? : Option Kwargs) (n? : Option String)
    (i? : Option ModuleInterface) (tr : List Event) (st' : Nat) (p : ProxyInstance)
    (h : RemoteModule env st to_ c a? k? n? i? = (tr, st', .ok p)) :
    ∃ iface, resolveIface env c i? = some iface
    ∧ (p.is_scriptable = true →
        tr.filter Event.isSyncCreate
          = [.rpcSyncCreate to_ c iface (a?.getD []) (k?.getD [])]
        ∧ tr.filter Event.isRemoteCreate = []
        ∧ ∃ m sm, env.runCreator c (a?.getD []) (k?.getD []) = .ok m
            ∧ env.jitScript m = .ok sm
            ∧ p.module_rref = .wrapped sm iface)
    ∧ (p.is_scriptable = false →
        tr.filter Event.isRemoteCreate
          = [.rpcRemoteCreate to_ c (a?.getD []) (k?.getD [])]
        ∧ tr.filter Event.isSyncCreate = []
        ∧ tr.filter Event.isFactoryRun = []
        ∧ p.module_rref = .pending to_ c (a?.getD []) (k?.getD [])) := by
  obtain ⟨ha, iface, hif, hst, hs, hloc, hfut, hbranch⟩ :=
    ok_run env st to_ c a? k? n? i? tr st' p h
  refine ⟨iface, hif, ?_, ?_⟩
  · intro hscr
    rw [if_pos hscr] at hbranch
    obtain ⟨hw, htr⟩ := hbranch
    obtain ⟨m, sm, hm, hsm, hr⟩ := wrapper_ok env.runCreator env.jitScript c iface
      (a?.getD []) (k?.getD []) p.module_rref hw
    subst htr
    exact ⟨by simp [List.filter, Event.isSyncCreate, Event.isRemoteCreate,
        Event.isFactoryRun],
      by simp [List.filter, Event.isSyncCreate, Event.isRemoteCreate, Event.isFactoryRun],
      m, sm, hm, hsm, hr⟩
  · intro hfalse
    rw [if_neg (by simp [hfalse])] at hbranch
    obtain ⟨hw, htr⟩ := hbranch
    subst htr
    exact ⟨by simp [List.filter, Event.isSyncCreate, Event.isRemoteCreate,
        Event.isFactoryRun],
      by simp [List.filter, Event.isSyncCreate, Event.isRemoteCreate, Event.isFactoryRun],
      by simp [List.filter, Event.isSyncCreate, Event.isRemoteCreate, Event.isFactoryRun],
      hw⟩

/-- Claim C6: the name used for a construction is the caller-supplied one when
given (counter untouched), and otherwise the allocator's result, which is
exactly `workerName ++ "_" ++ Nat.repr counter` for the pre-increment
counter value; in a completed run, the name carried by the remote
instantiation request is exactly the resolved one. -/
theorem C6_global_name_resolution (env : Env) (st : Nat) :
    (∀ n, resolveName env st (some n) = (n, st))
    ∧ resolveName env st none = _gen_global_unique_name env.workerName st
    ∧ _gen_global_unique_name env.workerName st
        = (env.workerName ++ "_" ++ Nat.repr st, st + 1)
    ∧ (∀ to_ c a? k? n? i? tr st' p,
        RemoteModule env st to_ c a? k? n? i? = (tr, st', .ok p) →
        ∀ to2 nm i s, Event.rpcAsyncInstantiate to2 nm i s ∈ tr →
          nm = (resolveName env st n?).1) := by
  refine ⟨fun n => rfl, rfl, rfl, ?_⟩
  intro to_ c a? k? n? i? tr st' p h to2 nm i s hmem
  obtain ⟨ha, iface, hif, hst, hs, hloc, hfut, hbranch⟩ :=
    ok_run env st to_ c a? k? n? i? tr st' p h
  by_cases hscr : p.is_scriptable = true
  · rw [if_pos hscr] at hbranch
    obtain ⟨hw, htr⟩ := hbranch
    subst htr
    simp only [List.mem_cons, List.not_mem_nil, or_false] at hmem
    rcases hmem with h1 | h1 | h1 | h1 | h1 <;> first
      | (cases h1; rfl)
      | cases h1
  · rw [if_neg hscr] at hbranch
    obtain ⟨hw, htr⟩ := hbranch
    subst htr
    simp only [List.mem_cons, List.not_mem_nil, or_false] at hmem
    rcases hmem with h1 | h1 | h1 | h1 <;> first
      | (cases h1; rfl)
      | cases h1

/-- Claim C8: in a completed run, the asynchronous remote request and the local
call execute the template instantiator on the identical argument triple;
with the same underlying instantiator on both sides, the remote result
equals the locally produced proxy class, and either side consults the code
generator under the derived name `"_RemoteModule_" ++ name`. -/
theorem C8_remote_and_local_instantiation_agree (env : Env) (st : Nat)
    (to_ : String) (c : Creator) (a? : Option Args) (k? : Option Kwargs)
    (n? : Option String) (i? : Option ModuleInterface) (tr : List Event)
    (st' : Nat) (p : ProxyInstance)
    (h : RemoteModule env st to_ c a? k? n? i? = (tr, st', .ok p)) :
    ∃ iface, resolveIface env c i? = some iface
    ∧ Event.rpcAsyncInstantiate to_ (resolveName env st n?).1 iface p.is_scriptable ∈ tr
    ∧ Event.localInstantiate (resolveName env st n?).1 iface p.is_scriptable ∈ tr
    ∧ _instantiate_template env.localInst (resolveName env st n?).1 iface
        p.is_scriptable = .ok p.cls
    ∧ (env.remoteInst = env.localInst →
        _instantiate_template env.remoteInst (resolveName env st n?).1 iface
          p.is_scriptable = .ok p.cls)
    ∧ (∀ inst0 nm i s, _instantiate_template inst0 nm i s
        = Except.map GeneratedModule._RemoteModule (inst0 ("_RemoteModule_" ++ nm) i s)) := by
  obtain ⟨ha, iface, hif, hst, hs, hloc, hfut, hbranch⟩ :=
    ok_run env st to_ c a? k? n? i? tr st' p h
  have hgen : ∀ (inst0 : Instantiator) nm i s, _instantiate_template inst0 nm i s
      = Except.map GeneratedModule._RemoteModule (inst0 ("_RemoteModule_" ++ nm) i s) := by
    intro inst0 nm i s
    simp only [_instantiate_template]
    cases hc : inst0 ("_RemoteModule_" ++ nm) i s <;> simp [hc, Except.map]
  have hsame : env.remoteInst = env.localInst →
      _instantiate_template env.remoteInst (resolveName env st n?).1 iface
        p.is_scriptable = .ok p.cls := by
    intro he
    rw [he]
    exact hloc
  by_cases hscr : p.is_scriptable = true
  · rw [if_pos hscr] at hbranch
    obtain ⟨hw, htr⟩ := hbranch
    subst htr
    exact ⟨iface, hif, by simp, by simp, hloc, hsame, hgen⟩
  · rw [if_neg hscr] at hbranch
    obtain ⟨hw, htr⟩ := hbranch
    subst htr
    exact ⟨iface, hif, by simp, by simp, hloc, hsame, hgen⟩

/-- Claim C9: with `args` and `kwargs` omitted (Python `None`), every creation
request of a completed run carries the empty argument tuple and the empty
keyword dict. -/
theorem C9_omitted_arguments_normalized (env : Env) (st : Nat) (to_ : String)
    (c : Creator) (n? : Option String) (i? : Option ModuleInterface)
    (tr : List Event) (st' : Nat) (p : ProxyInstance)
    (h : RemoteModule env st to_ c none none n? i? = (tr, st', .ok p)) :
    (∀ to2 c2 i2 a k, Event.rpcSyncCreate to2 c2 i2 a k ∈ tr → a = [] ∧ k = [])
    ∧ (∀ c2 a k, Event.remoteFactoryRun c2 a k ∈ tr → a = [] ∧ k = [])
    ∧ (∀ to2 c2 a k, Event.rpcRemoteCreate to2 c2 a k ∈ tr → a = [] ∧ k = []) := by
  obtain ⟨ha, iface, hif, hst, hs, hloc, hfut, hbranch⟩ :=
    ok_run env st to_ c none none n? i? tr st' p h
  by_cases hscr : p.is_scriptable = true
  · rw [if_pos hscr] at hbranch
    obtain ⟨hw, htr⟩ := hbranch
    subst htr
    refine ⟨?_, ?_, ?_⟩ <;> (intro _ _ ; intros; simp_all)
  · rw [if_neg hscr] at hbranch
    obtain ⟨hw, htr⟩ := hbranch
    subst htr
    refine ⟨?_, ?_, ?_⟩ <;> (intro _ _ ; intros; simp_all)

/-- Claim C10: the capability flag of a completed run equals the interface's
`__torch_script_interface__` attribute with default `false`; when the
attribute is absent the run takes the deferred (non-scriptable) creation
path. -/
theorem C10_capability_flag_default_false (env : Env) (st : Nat) (to_ : String)
    (c : Creator) (a? : Option Args) (k? : Option Kwargs) (n? : Option String)
    (i? : Option ModuleInterface) (tr : List Event) (st' : Nat)
    (p : ProxyInstance) (iface : ModuleInterface)
    (h : RemoteModule env st to_ c a? k? n? i? = (tr, st', .ok p))
    (hif : resolveIface env c i? = some iface) :
    p.is_scriptable = iface.torch_script_interface.getD false
    ∧ (iface.torch_script_interface = none →
        p.is_scriptable = false
        ∧ tr.filter Event.isRemoteCreate
            = [.rpcRemoteCreate to_ c (a?.getD []) (k?.getD [])]
        ∧ tr.filter Event.isSyncCreate = []
        ∧ p.module_rref = .pending to_ c (a?.getD []) (k?.getD [])) := by
  obtain ⟨ha, iface', hif', hst, hs, hloc, hfut, hbranch⟩ :=
    ok_run env st to_ c a? k? n? i? tr st' p h
  rw [hif] at hif'
  cases hif'
  refine ⟨hs, ?_⟩
  intro hnone
  have hfl : p.is_scriptable = false := by rw [hs, hnone]; rfl
  rw [if_neg (by simp [hfl])] at hbranch
  obtain ⟨hw, htr⟩ := hbranch
  subst htr
  exact ⟨hfl, by simp [List.filter, Event.isRemoteCreate, Event.isSyncCreate],
    by simp [List.filter, Event.isRemoteCreate, Event.isSyncCreate], hw⟩

example : RemoteModule sampleEnv 0 "worker1" ⟨5⟩ none none none none
    = (sampleTraceN, 1, .ok sampleProxyN) := by rfl

example : RemoteModule sampleEnv 0 "worker1" ⟨5⟩ none none none (some sampleIfaceS)
    = (sampleTraceS, 1, .ok sampleProxyS) := by rfl

/-- Witness for C1 at the concrete non-scriptable sample run. -/
theorem C1_witness :
    sampleTraceN.getLast? = some Event.futWait
    ∧ ∃ iface, resolveIface sampleEnv ⟨5⟩ none = some iface
      ∧ (_instantiate_template sampleEnv.remoteInst (resolveName sampleEnv 0 none).1 iface
          sampleProxyN.is_scriptable).isOk = true
      ∧ (sampleProxyN.is_scriptable = true →
          _script_module_creator_wrapper sampleEnv.runCreator sampleEnv.jitScript ⟨5⟩ iface
            [] [] = .ok sampleProxyN.module_rref)
      ∧ (sampleProxyN.is_scriptable = false →
          sampleProxyN.module_rref = .pending "worker1" ⟨5⟩ [] []) :=
  C1_return_only_after_both_remote_effects sampleEnv 0 "worker1" ⟨5⟩ none none none none
    sampleTraceN 1 sampleProxyN (by rfl)

/-- Witness for C3 at a run whose remote codegen fails while everything
else succeeds. -/
theorem C3_witness :
    (RemoteModule sampleEnvFutErr 0 "worker1" ⟨5⟩ none none (some "nm")
        (some sampleIfaceS)).2.2
      = .error (.templateGenerationError "remote codegen failed")
    ∧ ∀ p, (RemoteModule sampleEnvFutErr 0 "worker1" ⟨5⟩ none none (some "nm")
        (some sampleIfaceS)).2.2 ≠ .ok p :=
  C3_remote_template_failure_raises sampleEnvFutErr 0 "worker1" ⟨5⟩ none none (some "nm")
    (some sampleIfaceS) sampleIfaceS sampleCls "remote codegen failed"
    rfl rfl (by rfl) (by rfl) (fun _ => by rfl)

/-- Witness for C4 at the concrete scriptable sample run. -/
theorem C4_witness :
    ∃ iface, resolveIface sampleEnv ⟨5⟩ (some sampleIfaceS) = some iface
    ∧ (sampleProxyS.is_scriptable = true →
        sampleTraceS.filter Event.isSyncCreate
          = [.rpcSyncCreate "worker1" ⟨5⟩ iface [] []]
        ∧ sampleTraceS.filter Event.isRemoteCreate = []
        ∧ ∃ m sm, sampleEnv.runCreator ⟨5⟩ [] [] = .ok m
            ∧ sampleEnv.jitScript m = .ok sm
            ∧ sampleProxyS.module_rref = .wrapped sm iface)
    ∧ (sampleProxyS.is_scriptable = false →
        sampleTraceS.filter Event.isRemoteCreate
          = [.rpcRemoteCreate "worker1" ⟨5⟩ [] []]
        ∧ sampleTraceS.filter Event.isSyncCreate = []
        ∧ sampleTraceS.filter Event.isFactoryRun = []
        ∧ sampleProxyS.module_rref = .pending "worker1" ⟨5⟩ [] []) :=
  C4_creation_dispatch_on_capability sampleEnv 0 "worker1" ⟨5⟩ none none none
    (some sampleIfaceS) sampleTraceS 1 sampleProxyS (by rfl)

/-- Witness for C6 at the concrete sample run: the allocator-resolved name
is `worker0_0` and it is the name the remote instantiation request
carries. -/
theorem C6_witness :
    resolveName sampleEnv 0 none = ("worker0_0", 1)
    ∧ ("worker0_0" : String) = (resolveName sampleEnv 0 none).1 := by
  have h := C6_global_name_resolution sampleEnv 0
  refine ⟨?_, ?_⟩
  · rw [h.2.1, h.2.2.1]
    decide
  · exact h.2.2.2 "worker1" ⟨5⟩ none none none none sampleTraceN 1 sampleProxyN (by rfl)
      "worker1" "worker0_0" sampleIfaceN false (by decide)

/-- Witness for C8 at the concrete scriptable sample run. -/
theorem C8_witness :
    ∃ iface, resolveIface sampleEnv ⟨5⟩ (some sampleIfaceS) = some iface
    ∧ Event.rpcAsyncInstantiate "worker1" (resolveName sampleEnv 0 none).1 iface
        sampleProxyS.is_scriptable ∈ sampleTraceS
    ∧ Event.localInstantiate (resolveName sampleEnv 0 none).1 iface
        sampleProxyS.is_scriptable ∈ sampleTraceS
    ∧ _instantiate_template sampleEnv.localInst (resolveName sampleEnv 0 none).1 iface
        sampleProxyS.is_scriptable = .ok sampleProxyS.cls
    ∧ (sampleEnv.remoteInst = sampleEnv.localInst →
        _instantiate_template sampleEnv.remoteInst (resolveName sampleEnv 0 none).1 iface
          sampleProxyS.is_scriptable = .ok sampleProxyS.cls)
    ∧ (∀ inst0 nm i s, _instantiate_template inst0 nm i s
        = Except.map GeneratedModule._RemoteModule (inst0 ("_RemoteModule_" ++ nm) i s)) :=
  C8_remote_and_local_instantiation_agree sampleEnv 0 "worker1" ⟨5⟩ none none none
    (some sampleIfaceS) sampleTraceS 1 sampleProxyS (by rfl)

/-- Witness for C9 at the concrete sample run with omitted arguments. -/
theorem C9_witness :
    (∀ to2 c2 i2 a k, Event.rpcSyncCreate to2 c2 i2 a k ∈ sampleTraceN → a = [] ∧ k = [])
    ∧ (∀ c2 a k, Event.remoteFactoryRun c2 a k ∈ sampleTraceN → a = [] ∧ k = [])
    ∧ (∀ to2 c2 a k, Event.rpcRemoteCreate to2 c2 a k ∈ sampleTraceN → a = [] ∧ k = []) :=
  C9_omitted_arguments_normalized sampleEnv 0 "worker1" ⟨5⟩ none none sampleTraceN 1
    sampleProxyN (by rfl)

/-- Witness for C10 at the concrete sample run whose interface lacks the
scriptable attribute. -/
theorem C10_witness :
    sampleProxyN.is_scriptable = sampleIfaceN.torch_script_interface.getD false
    ∧ (sampleIfaceN.torch_script_interface = none →
        sampleProxyN.is_scriptable = false
        ∧ sampleTraceN.filter Event.isRemoteCreate = [.rpcRemoteCreate "worker1" ⟨5⟩ [] []]
        ∧ sampleTraceN.filter Event.isSyncCreate = []
        ∧ sampleProxyN.module_rref = .pending "worker1" ⟨5⟩ [] []) :=
  C10_capability_flag_default_false sampleEnv 0 "worker1" ⟨5⟩ none none none none
    sampleTraceN 1 sampleProxyN sampleIfaceN (by rfl) rfl
